import Mathlib

/-!
Verification of the status.scijava.org status-aggregation and scoring engine.

The development shallowly embeds the Python sources (maven.py, github.py,
report.py, html-report.py, status.py) into Lean:

* pure functions become Lean functions;
* CPython machine behaviour that the code relies on (datetime arithmetic,
  timedelta normalisation, truthiness, `str`/`int` conversions, dict access)
  is modelled by small explicit helper functions;
* fallible code returns `Except String`: every place the Python can raise
  (ValueError, TypeError, AssertionError, IndexError) becomes `.error`;
* the filesystem and the GitHub search endpoint are abstracted as explicit
  function-valued parameters, so theorems quantify over their behaviour.
-/

/-! ## CPython datetime model

`datetime.datetime` values as used by the sources: naive, second precision
(every timestamp handled by the code is whole seconds). Construction
validates field ranges exactly as CPython does; comparison is field-wise
lexicographic; subtraction yields a timedelta measured here in seconds.
-/

structure PyDateTime where
  year : Nat
  month : Nat
  day : Nat
  hour : Nat
  minute : Nat
  second : Nat
deriving DecidableEq, Repr

/-- `datetime.datetime(datetime.MINYEAR, 1, 1, 0, 0, 0)` — the `datetime0`
sentinel of report.py / html-report.py. -/
def datetime0 : PyDateTime := ⟨1, 1, 1, 0, 0, 0⟩

def isLeapYear (y : Nat) : Bool := y % 4 == 0 && (y % 100 != 0 || y % 400 == 0)

def daysInMonth (y m : Nat) : Nat :=
  if m = 2 then (if isLeapYear y then 29 else 28)
  else if m = 4 ∨ m = 6 ∨ m = 9 ∨ m = 11 then 30
  else 31

def daysBeforeMonthAux (y : Nat) : Nat → Nat
  | 0 => 0
  | k + 1 => daysBeforeMonthAux y k + daysInMonth y (k + 1)

/-- Days in year `y` before the first of month `m` (CPython `_days_before_month`). -/
def daysBeforeMonth (y m : Nat) : Nat := daysBeforeMonthAux y (m - 1)

/-- Days before January 1st of year `y` (CPython `_days_before_year`). -/
def daysBeforeYear (y : Nat) : Nat :=
  (y - 1) * 365 + (y - 1) / 4 - (y - 1) / 100 + (y - 1) / 400

/-- Seconds since 0001-01-01 00:00:00; datetime subtraction in CPython yields
a timedelta whose total seconds is exactly the difference of these values. -/
def PyDateTime.toSecs (dt : PyDateTime) : Int :=
  (((daysBeforeYear dt.year + daysBeforeMonth dt.year dt.month + (dt.day - 1)) * 86400
    + dt.hour * 3600 + dt.minute * 60 + dt.second : Nat) : Int)

/-- CPython datetime `<`: lexicographic on (year, month, day, hour, minute, second). -/
def dtLtB (a b : PyDateTime) : Bool :=
  if a.year ≠ b.year then decide (a.year < b.year)
  else if a.month ≠ b.month then decide (a.month < b.month)
  else if a.day ≠ b.day then decide (a.day < b.day)
  else if a.hour ≠ b.hour then decide (a.hour < b.hour)
  else if a.minute ≠ b.minute then decide (a.minute < b.minute)
  else decide (a.second < b.second)

/-- CPython builtin `max(a, b)`: keeps `a` unless `b` is strictly greater. -/
def pyMaxDT (a b : PyDateTime) : PyDateTime := if dtLtB a b then b else a

/-- CPython: `datetime == int` — both sides return NotImplemented, so `==`
falls back to identity comparison and is always `False`. This is the
comparison performed by `last_vetted == 0` in `maintenance_score`. -/
def pyEqDatetimeInt (_dt : PyDateTime) (_n : Int) : Bool := false

/-- `datetime.datetime(y, mo, d, h, mi, s)` — validates field ranges as
CPython does, raising ValueError otherwise. -/
def mkPyDateTime (y mo d h mi s : Nat) : Except String PyDateTime :=
  if 1 ≤ y ∧ y ≤ 9999 ∧ 1 ≤ mo ∧ mo ≤ 12 ∧ 1 ≤ d ∧ d ≤ daysInMonth y mo
      ∧ h ≤ 23 ∧ mi ≤ 59 ∧ s ≤ 59
  then .ok ⟨y, mo, d, h, mi, s⟩
  else .error "ValueError: datetime argument out of range"

/-! ## CPython string/number helpers -/

def digitsToNat (cs : List Char) : Nat :=
  cs.foldl (fun acc c => 10 * acc + (c.toNat - 48)) 0

/-- Take exactly `n` leading digits, returning them and the remainder. -/
def takeDigits : Nat → List Char → Option (List Char × List Char)
  | 0, cs => some ([], cs)
  | _ + 1, [] => none
  | n + 1, c :: cs =>
    if c.isDigit then (takeDigits n cs).map (fun p => (c :: p.1, p.2)) else none

def isPyWS (c : Char) : Bool :=
  c = ' ' ∨ c = '\t' ∨ c = '\n' ∨ c = '\r' ∨ c = '\x0b' ∨ c = '\x0c'

def pyStripChars (cs : List Char) : List Char :=
  ((cs.dropWhile isPyWS).reverse.dropWhile isPyWS).reverse

/-- CPython `str.strip()` (whitespace in both senses the sources rely on). -/
def pyStrip (s : String) : String := String.mk (pyStripChars s.data)

/-- CPython `s.endswith(suffix)` (computes by structural list recursion). -/
def pyEndsWith (s suffix : String) : Bool := suffix.data.isSuffixOf s.data

/-- CPython `s.startswith(pre)` (computes by structural list recursion). -/
def pyStartsWith (s pre : String) : Bool := pre.data.isPrefixOf s.data

/-- CPython `s[:-n]` for `0 < n ≤ len(s)`: drop the last `n` characters. -/
def pyDropRight (s : String) (n : Nat) : String :=
  String.mk (s.data.take (s.data.length - n))

/-- CPython `int(s)` for decimal strings: optional surrounding whitespace and
sign, then a non-empty digit run; anything else raises ValueError.
(Underscore digit grouping, never present in Maven timestamps, is not
modelled.) -/
def pyInt (s : String) : Except String Int :=
  match pyStripChars s.data with
  | '-' :: rest =>
    if rest ≠ [] ∧ rest.all Char.isDigit then .ok (-(digitsToNat rest : Int))
    else .error ("ValueError: invalid literal for int: " ++ s)
  | '+' :: rest =>
    if rest ≠ [] ∧ rest.all Char.isDigit then .ok (digitsToNat rest : Int)
    else .error ("ValueError: invalid literal for int: " ++ s)
  | cs =>
    if cs ≠ [] ∧ cs.all Char.isDigit then .ok (digitsToNat cs : Int)
    else .error ("ValueError: invalid literal for int: " ++ s)

/-- CPython `str(x)` for `x : Optional[int]`: `None` stringifies to "None". -/
def pyStrOfOptInt : Option Int → String
  | none => "None"
  | some n => toString n

/-- CPython truthiness of `Optional[str]`: None and "" are falsy. -/
def pyTruthyOptStr : Option String → Bool
  | none => false
  | some s => s ≠ ""

/-- CPython truthiness of `Optional[int]`: None and 0 are falsy. -/
def pyTruthyOptInt : Option Int → Bool
  | none => false
  | some n => n ≠ 0

/-! ## maven.py : timestamps -/

/-- maven.py `ts2dt`: matches the regex
`(\d{4})(\d\d)(\d\d)\.?(\d\d)(\d\d)(\d\d)` against the start of the string
(trailing characters are allowed, as with `re.match`). -/
def tsRegexMatch (cs : List Char) : Option (Nat × Nat × Nat × Nat × Nat × Nat) := do
  let (y, r1) ← takeDigits 4 cs
  let (mo, r2) ← takeDigits 2 r1
  let (d, r3) ← takeDigits 2 r2
  let r3x := match r3 with
    | '.' :: rest => rest
    | other => other
  let (h, r4) ← takeDigits 2 r3x
  let (mi, r5) ← takeDigits 2 r4
  let (s, _) ← takeDigits 2 r5
  pure (digitsToNat y, digitsToNat mo, digitsToNat d,
        digitsToNat h, digitsToNat mi, digitsToNat s)

/-- maven.py `ts2dt(ts)`: parse a Maven timestamp (`20210702144918` or
`20210702.144917`); an unmatched string raises
`ValueError: Invalid timestamp`, and `datetime(...)` itself validates. -/
def ts2dt (ts : String) : Except String PyDateTime :=
  match tsRegexMatch ts.data with
  | none => .error ("Invalid timestamp: " ++ ts)
  | some (y, mo, d, h, mi, s) => mkPyDateTime y mo d h mi s

/-! ## maven.py : XML field access -/

/-- A parsed `xml.etree` element as consumed by `XML.value` /
`MavenMetadata`: only its text payload matters (`el.text` is `Optional`). -/
structure XMLElem where
  text : Option String
deriving DecidableEq, Repr

/-- maven.py `XML.value` applied to a `findall` result:
`assert len(el) <= 1; return None if len(el) == 0 else el[0].text`. -/
def xmlValue (el : List XMLElem) : Except String (Option String) :=
  if el.length ≤ 1 then
    .ok (match el with
         | [] => none
         | e :: _ => e.text)
  else .error "AssertionError: len(el) <= 1"

/-- A parsed document for `XML.value`: `findall` maps a path to the list of
matching elements (the boundary at which maven.py consumes ElementTree). -/
structure XMLDoc where
  findall : String → List XMLElem

/-- maven.py `XML.value(path)` on a document. -/
def XMLDoc.value (doc : XMLDoc) (path : String) : Except String (Option String) :=
  xmlValue (doc.findall path)

/-! ## maven.py : metadata and POM resolution

The Nexus backing storage is abstracted as a `MavenFS`: which
maven-metadata.xml files exist (already parsed to their relevant elements),
which directory listings `pathlib.Path.glob` ranges over, and which release
POM paths exist.
-/

def storage : String := "/opt/sonatype-work/nexus/storage"

def release_repos : List String :=
  ["releases", "thirdparty", "sonatype", "central", "ome-releases"]

def snapshot_repos : List String :=
  ["snapshots", "sonatype-snapshots", "ome-snapshots"]

/-- maven.py `ts_allowance = 10` — maximum seconds difference in SNAPSHOT
timestamp. -/
def ts_allowance : Nat := 10

/-- A parsed maven-metadata.xml, at the elements `MavenMetadata` reads:
`findall("versioning/lastUpdated")` and
`findall("versioning/versions/version")`. -/
structure MavenMetadataXML where
  lastUpdatedEls : List XMLElem
  versionEls : List XMLElem
deriving DecidableEq, Repr

/-- maven.py `MavenMetadata.lastUpdated`: `value("versioning/lastUpdated")`
then `int(...)` unless the value is None. Both the multi-element assertion
and the int conversion can raise. -/
def MavenMetadataXML.lastUpdated (m : MavenMetadataXML) : Except String (Option Int) :=
  match xmlValue m.lastUpdatedEls with
  | .error e => .error e
  | .ok none => .ok none
  | .ok (some s) =>
    match pyInt s with
    | .error e => .error e
    | .ok n => .ok (some n)

/-- maven.py `MavenMetadata.lastVersion`: last element of
`versioning/versions/version`, None when there are no elements. -/
def MavenMetadataXML.lastVersion (m : MavenMetadataXML) : Option String :=
  match m.versionEls.getLast? with
  | none => none
  | some e => e.text

/-- The backing storage as seen by maven.py: metadata files by path,
directory listings by path, release-POM existence by path. -/
structure MavenFS where
  metadataFile : String → Option MavenMetadataXML
  dirListing : String → List String
  pomFileExists : String → Bool

/-- `g.replace('.', '/')`. -/
def gPath (g : String) : String :=
  String.mk (g.data.map (fun c => if c = '.' then '/' else c))

/-- The per-coordinate suffix used by `MavenComponent._metadata`. -/
def metadataSuffix (g a : String) : String :=
  gPath g ++ "/" ++ a ++ "/maven-metadata.xml"

/-- maven.py `MavenComponent._metadata`: scan the repo list in order, keep
the metadata with the strictly greatest `lastUpdated`. The comparison
`m.lastUpdated > best.lastUpdated` is only reached when `best` is already
set; comparing an int against a None `best.lastUpdated` is a CPython
TypeError, which propagates. -/
def metadataScan (fs : MavenFS) (g a : String) :
    List String → Option MavenMetadataXML → Except String (Option MavenMetadataXML)
  | [], best => .ok best
  | repo :: rest, best =>
    let path := storage ++ "/" ++ repo ++ "/" ++ metadataSuffix g a
    match fs.metadataFile path with
    | none => metadataScan fs g a rest best
    | some m =>
      match best with
      | none => metadataScan fs g a rest (some m)
      | some b =>
        match m.lastUpdated with
        | .error e => .error e
        | .ok none => metadataScan fs g a rest (some b)
        | .ok (some mv) =>
          match b.lastUpdated with
          | .error e => .error e
          | .ok none => .error "TypeError: > not supported between int and NoneType"
          | .ok (some bv) =>
            if mv > bv then metadataScan fs g a rest (some m)
            else metadataScan fs g a rest (some b)

/-- Drop a literal prefix from a character list, or fail. -/
def dropLiteral : List Char → List Char → Option (List Char)
  | [], cs => some cs
  | _ :: _, [] => none
  | p :: ps, c :: cs => if p = c then dropLiteral ps cs else none

/-- The filename match of `MavenComponent._pom`:
`re.match(pom_prefix + "-(\d{8}\.\d{6})-\d+\.pom", f.name)`, returning the
captured timestamp group. The characters of `pom_prefix` are matched
literally (the enclosing glob already fixed them; the regex-metacharacter
reading of a dot inside an artifactId/version is not modelled). As with
`re.match`, characters may trail the final ".pom". -/
def pomNameTs (pomPre : String) (name : String) : Option String :=
  match dropLiteral (pomPre ++ "-").data name.data with
  | none => none
  | some r1 =>
    match takeDigits 8 r1 with
    | none => none
    | some (d8, r2) =>
      match r2 with
      | '.' :: r3 =>
        match takeDigits 6 r3 with
        | none => none
        | some (d6, r4) =>
          match r4 with
          | '-' :: r5 =>
            if (r5.takeWhile Char.isDigit) ≠ [] ∧
                ".pom".data.isPrefixOf (r5.dropWhile Char.isDigit) then
              some (String.mk (d8 ++ '.' :: d6))
            else none
          | _ => none
      | _ => none

/-- The `d.glob(f"{pom_prefix}-*.pom")` filter over a directory listing. -/
def pomGlobFilter (pomPre : String) (names : List String) : List String :=
  names.filter (fun n => pyStartsWith n (pomPre ++ "-") && pyEndsWith n ".pom")

/-- Inner loop of the SNAPSHOT branch of `_pom`: for each glob hit, apply
the filename regex, parse the embedded timestamp and compare
`abs(dt_requested - dt_actual).seconds <= ts_allowance`. CPython timedelta
normalisation makes `.seconds` the sub-day component: the absolute
difference in seconds modulo 86400. -/
def pomSnapshotFileScan (dtRequested : PyDateTime) (pomPre d : String) :
    List String → Except String (Option String)
  | [] => .ok none
  | f :: rest =>
    match pomNameTs pomPre f with
    | none => pomSnapshotFileScan dtRequested pomPre d rest
    | some tstr =>
      match ts2dt tstr with
      | .error e => .error e
      | .ok dtActual =>
        if (dtRequested.toSecs - dtActual.toSecs).natAbs % 86400 ≤ ts_allowance
        then .ok (some (d ++ "/" ++ f))
        else pomSnapshotFileScan dtRequested pomPre d rest

/-- Outer loop of the SNAPSHOT branch of `_pom` over the repo list. -/
def pomSnapshotRepoScan (fs : MavenFS) (dtRequested : PyDateTime)
    (pomPre gavPath : String) : List String → Except String (Option String)
  | [] => .ok none
  | repo :: rest =>
    let d := storage ++ "/" ++ repo ++ "/" ++ gavPath
    match pomSnapshotFileScan dtRequested pomPre d
        (pomGlobFilter pomPre (fs.dirListing d)) with
    | .error e => .error e
    | .ok (some p) => .ok (some p)
    | .ok none => pomSnapshotRepoScan fs dtRequested pomPre gavPath rest

/-- Release branch of `_pom`: first repo whose deterministic POM path exists. -/
def pomReleaseRepoScan (fs : MavenFS) (suffix : String) : List String → Option String
  | [] => none
  | repo :: rest =>
    let path := storage ++ "/" ++ repo ++ "/" ++ suffix
    if fs.pomFileExists path then some path else pomReleaseRepoScan fs suffix rest

/-- maven.py `MavenComponent._pom(repos, g, a, v, ts)`. The resolved POM is
represented by its path (`MavenPOM(str(f))` keeps exactly that source). -/
def pomResolve (fs : MavenFS) (repos : List String) (g a v : String)
    (ts : Option String) : Except String (Option String) :=
  let gavPath := gPath g ++ "/" ++ a ++ "/" ++ v
  if pyEndsWith v "-SNAPSHOT" then
    match ts with
    | none => .error "AssertionError: ts is not None"
    | some tsStr =>
      match ts2dt tsStr with
      | .error e => .error e
      | .ok dtRequested =>
        pomSnapshotRepoScan fs dtRequested (a ++ "-" ++ pyDropRight v 9) gavPath repos
  else
    .ok (pomReleaseRepoScan fs (gavPath ++ "/" ++ a ++ "-" ++ v ++ ".pom") repos)

/-- The state built by `MavenComponent.__init__`. -/
structure MavenComponentRec where
  groupId : String
  artifactId : String
  release : Option MavenMetadataXML
  snapshot : Option MavenMetadataXML
  pom : Option String
deriving DecidableEq, Repr

/-- The `elif self.release and self.release.lastVersion` arm of
`MavenComponent.__init__`. -/
def releasePomBranch (fs : MavenFS) (g a : String)
    (release : Option MavenMetadataXML) : Except String (Option String) :=
  match release with
  | some rel =>
    if pyTruthyOptStr rel.lastVersion then
      pomResolve fs release_repos g a (rel.lastVersion.getD "") none
    else .ok none
  | none => .ok none

/-- maven.py `MavenComponent.__init__(g, a)`: resolve release metadata,
snapshot metadata, then the POM; when the snapshot branch is taken the
argument `ts=str(self.snapshot.lastUpdated)` is evaluated before `_pom`
runs, so a raising `lastUpdated` (or a stringified None fed to `ts2dt`)
escapes the constructor. -/
def mavenComponentInit (fs : MavenFS) (g a : String) : Except String MavenComponentRec :=
  match metadataScan fs g a release_repos none with
  | .error e => .error e
  | .ok release =>
    match metadataScan fs g a snapshot_repos none with
    | .error e => .error e
    | .ok snapshot =>
      let pomRes : Except String (Option String) :=
        match snapshot with
        | some snap =>
          if pyTruthyOptStr snap.lastVersion then
            match snap.lastUpdated with
            | .error e => .error e
            | .ok lu =>
              pomResolve fs snapshot_repos g a (snap.lastVersion.getD "")
                (some (pyStrOfOptInt lu))
          else releasePomBranch fs g a release
        | none => releasePomBranch fs g a release
      match pomRes with
      | .error e => .error e
      | .ok pom => .ok ⟨g, a, release, snapshot, pom⟩

/-! ## report.py / html-report.py : override files and scoring

Components are the JSON records of status.json as read back by report.py:
string-keyed dicts accessed through the null-safe `get` helper. Each record
is modelled at exactly the fields the scoring functions read; a missing or
null JSON field is `none`. Counters (label and milestone histograms) are
association lists with Python-dict lookup.
-/

/-- Python dict lookup over an association list built by successive
insertion: the last binding of a key wins. -/
def dictGet (l : List (String × String)) (k : String) : Option String :=
  match (l.filter (fun p => p.1 == k)).getLast? with
  | none => none
  | some p => some p.2

/-- Counter lookup: first binding of the key (keys are unique by
construction). -/
def counterLookup (l : List (String × Int)) (k : String) : Option Int :=
  match l.find? (fun p => p.1 == k) with
  | none => none
  | some p => some p.2

/-- report.py `get(issues, 'labels', key) or 0`: missing dict, missing key
and a zero count all collapse to 0. -/
def pyGetOr0 (m : Option (List (String × Int))) (k : String) : Int :=
  match m with
  | none => 0
  | some l => (counterLookup l k).getD 0

/-- `Counter`: increment the binding of a key, appending a fresh binding
when absent (insertion order preserved, as in `collections.Counter`). -/
def counterAdd : List (String × Int) → String → List (String × Int)
  | [], x => [(x, 1)]
  | (k, v) :: rest, x =>
    if k == x then (k, v + 1) :: rest else (k, v) :: counterAdd rest x

/-- `collections.Counter(xs)`. -/
def counterOf (xs : List String) : List (String × Int) := xs.foldl counterAdd []

/-- The `release`/`snapshot` sub-record of a status.json component, at the
single field the scoring engine reads. -/
structure MetaJson where
  lastUpdated : Option Int
deriving DecidableEq, Repr

/-- The `issues` sub-record written by status.py, at the fields read by the
scoring engine (`count`, `prs`, `drafts`, `labels`, `milestones`; the
remaining keys — org, repo, unscheduled, oldest, updated, assignees — are
not consumed by any score). -/
structure IssuesData where
  count : Option Int
  prs : Option Int
  drafts : Option Int
  labels : Option (List (String × Int))
  milestones : Option (List (String × Int))
deriving DecidableEq, Repr

/-- A status.json component record, at the fields the scoring engine reads.
`issues = none` covers both a missing and a null `issues` entry (the dict
written by status.py is never empty when present, so Python dict truthiness
coincides with presence). -/
structure ComponentRec where
  groupId : String
  artifactId : String
  release : Option MetaJson
  snapshot : Option MetaJson
  issues : Option IssuesData
deriving DecidableEq, Repr

/-- report.py `review_score`. -/
def review_score (c : ComponentRec) : Int :=
  match c.issues with
  | none => 0
  | some i => 1000 * (i.prs.getD 0 - i.drafts.getD 0)

/-- report.py `support_score`. -/
def support_score (c : ComponentRec) : Int :=
  match c.issues with
  | none => 0
  | some i =>
    10 * (i.count.getD 0 - pyGetOr0 i.labels "question")
      + 100 * pyGetOr0 i.labels "bug"
      + 25 * pyGetOr0 i.milestones "none"

/-- report.py `timestamp_override(g, a)`: look up `g:a` in the timestamps
map; an empty-string value is falsy and yields None; a present value is fed
to `ts2dt`, whose ValueError propagates. -/
def timestamp_override (timestamps : List (String × String)) (g a : String) :
    Except String (Option PyDateTime) :=
  match dictGet timestamps (g ++ ":" ++ a) with
  | none => .ok none
  | some ts =>
    if ts ≠ "" then
      match ts2dt ts with
      | .error e => .error e
      | .ok dt => .ok (some dt)
    else .ok none

/-- report.py `maintenance_score`. Faithful to the source line by line:
`release_timestamp` falls back to `datetime0` when `lastUpdated` is falsy,
`last_vetted = max(release_timestamp, manual_timestamp or datetime0)`, the
guard `last_vetted == 0` compares a datetime against an int (see
`pyEqDatetimeInt`), and otherwise the score is
`max(0, int((last_updated - last_vetted).total_seconds()))`. -/
def maintenance_score (timestamps : List (String × String)) (c : ComponentRec) :
    Except String Int :=
  let rlu := c.release.bind (fun r => r.lastUpdated)
  match (if pyTruthyOptInt rlu then ts2dt (pyStrOfOptInt rlu) else .ok datetime0) with
  | .error e => .error e
  | .ok release_timestamp =>
    match timestamp_override timestamps c.groupId c.artifactId with
    | .error e => .error e
    | .ok manual_timestamp =>
      let last_vetted := pyMaxDT release_timestamp (manual_timestamp.getD datetime0)
      if pyEqDatetimeInt last_vetted 0 then .ok 9999999999999
      else
        let slu := c.snapshot.bind (fun s => s.lastUpdated)
        match (if pyTruthyOptInt slu then ts2dt (pyStrOfOptInt slu) else .ok datetime0) with
        | .error e => .error e
        | .ok last_updated =>
          .ok (max 0 (last_updated.toSecs - last_vetted.toSecs))

/-- A developers-list entry of a status.json record, at the fields
`developer_score` reads. -/
structure Developer where
  id : Option String
  name : Option String
  roles : Option (List String)
deriving DecidableEq, Repr

/-- report.py `developer_score`: None (excluded) without roles or without
any of the three scored roles; maintenance_score is only evaluated for
maintainers. -/
def developer_score (timestamps : List (String × String)) (c : ComponentRec)
    (dev : Developer) : Except String (Option Int) :=
  match dev.roles with
  | none => .ok none
  | some roles =>
    if roles = [] then .ok none
    else
      let is_reviewer := roles.contains "reviewer"
      let is_support := roles.contains "support"
      let is_maintainer := roles.contains "maintainer"
      if ¬is_reviewer ∧ ¬is_support ∧ ¬is_maintainer then .ok none
      else
        let rs := if is_reviewer then review_score c else 0
        let ss := if is_support then support_score c else 0
        match (if is_maintainer then maintenance_score timestamps c else .ok 0) with
        | .error e => .error e
        | .ok ms => .ok (some (rs + ss + ms))

/-- CPython `s.split(sep, 1)` for a non-empty separator: split at the first
occurrence only; a separator-free string yields the singleton list. -/
def splitOnce (sep : List Char) : List Char → Option (List Char × List Char)
  | [] => none
  | c :: cs =>
    if sep.isPrefixOf (c :: cs) then some ([], (c :: cs).drop sep.length)
    else
      match splitOnce sep cs with
      | none => none
      | some (pre, post) => some (c :: pre, post)

def pySplit1 (s : String) (sep : String) : List String :=
  match splitOnce sep.data s.data with
  | none => [s]
  | some (a, b) => [String.mk a, String.mk b]

/-- The dict comprehension `{pair[0]: pair[1] for pair in pairs}`:
`pair[1]` raises IndexError on a singleton (a line without the separator). -/
def pairsToDictE : List (List String) → Except String (List (String × String))
  | [] => .ok []
  | p :: rest =>
    match p with
    | k :: v :: _ =>
      match pairsToDictE rest with
      | .error e => .error e
      | .ok l => .ok ((k, v) :: l)
    | _ => .error "IndexError: list index out of range"

/-- report.py `file2map`: every line of the file is stripped and split —
blank and comment lines are NOT filtered out. -/
def file2map_report (lines : List String) (sep : String) :
    Except String (List (String × String)) :=
  pairsToDictE (lines.map (fun l => pySplit1 (pyStrip l) sep))

/-- html-report.py `file2map`: lines whose stripped form is empty, and lines
starting with '#', are skipped before splitting. -/
def file2map_html (lines : List String) (sep : String) :
    Except String (List (String × String)) :=
  pairsToDictE
    ((lines.filter (fun l => !(pyStrip l == "") && !(pyStartsWith l "#"))).map
      (fun l => pySplit1 (pyStrip l) sep))

/-! ## github.py : issue items and the paginated download

An issue item is modelled at the fields the code reads from the raw GitHub
JSON dict: `repository_url` and `created_at`/`updated_at` (strings as
received), presence of the `pull_request` and `draft` marker keys, the
milestone title (None for a null milestone), label names and assignee
logins. `json.dump`/`json.loads` of the standard library round-trip parsed
JSON values, so the persisted issues file is modelled by the parsed item
list it contains. -/

structure GHItem where
  repository_url : String
  created_at : String
  updated_at : String
  pr_marker : Bool
  draft_marker : Bool
  milestone : Option String
  labels : List String
  assignees : List String
deriving DecidableEq, Repr

/-- The accumulated issue collection (`GitHubIssues._items`). -/
structure GitHubIssuesSt where
  items : List GHItem
deriving DecidableEq, Repr

/-- github.py `GitHubIssues.repo(org, repo)`: filter to items whose
`repository_url` ends with `/repos/{org}/{repo}`; the parent collection is
not mutated. -/
def ghRepo (s : GitHubIssuesSt) (org rep : String) : GitHubIssuesSt :=
  ⟨s.items.filter (fun it => pyEndsWith it.repository_url ("/repos/" ++ org ++ "/" ++ rep))⟩

/-- github.py `GitHubIssues.save(filepath)`: the persisted file holds the
current item list (json.dump with sorted keys round-trips the values). -/
def ghSave (s : GitHubIssuesSt) : List GHItem := s.items

/-- github.py `GitHubIssues.load(filepath)`: `self._items.extend(result)`. -/
def ghLoad (s : GitHubIssuesSt) (fileContents : List GHItem) : GitHubIssuesSt :=
  ⟨s.items ++ fileContents⟩

/-- A GitHub search-endpoint page response: `items`, `total_count`, and the
optional `next` relation link. A tracker behaviour is a total function from
request URL to response. -/
structure GHPage where
  items : List GHItem
  total_count : Int
  nextLink : Option String
deriving Repr

deriving instance DecidableEq for Except

def delay_per_request : Nat := 5

/-- github.py `self._max_requests = 100`. -/
def max_requests : Nat := 100

/-- github.py `GitHubIssues._search_url(query)`. -/
def searchUrl (query : String) : String :=
  "https://api.github.com/search/issues?q=" ++ query
    ++ "+is:open&sort=created&order=asc&per_page=100"

/-- `result['items'][-1]['created_at']` (only consulted on a non-empty page). -/
def lastCreatedAt (items : List GHItem) : String :=
  match items.getLast? with
  | some it => it.created_at
  | none => ""

/-- github.py `GitHubIssues._download_page(url, query)`: append the page's
items; keep the `next` link if present; otherwise, when the reported
`total_count` exceeds 1000 and the page was non-empty, synthesize the
overflow continuation query `{query}+created:>{last created_at}`. Returns
the new accumulated items and the next URL (None = stop). -/
def downloadPage (tracker : String → GHPage) (items : List GHItem)
    (url query : String) : List GHItem × Option String :=
  let r := tracker url
  let items2 := items ++ r.items
  let nextUrl :=
    if r.nextLink.isNone && decide (r.total_count > 1000) && decide (r.items.length > 0)
    then some (searchUrl (query ++ "+created:>" ++ lastCreatedAt r.items))
    else r.nextLink
  (items2, nextUrl)

/-- github.py `GitHubIssues.download(query)`: `for _ in range(max_requests)`
around `_download_page`, stopping early when no next URL is produced. The
second component counts the page fetches performed. -/
def downloadLoop (tracker : String → GHPage) :
    Nat → List GHItem → String → String → List GHItem × Nat
  | 0, items, _, _ => (items, 0)
  | n + 1, items, url, query =>
    let pr := downloadPage tracker items url query
    match pr.2 with
    | none => (pr.1, 1)
    | some u =>
      let r := downloadLoop tracker n pr.1 u query
      (r.1, r.2 + 1)

def ghDownload (tracker : String → GHPage) (s : GitHubIssuesSt) (query : String) :
    GitHubIssuesSt × Nat :=
  let r := downloadLoop tracker max_requests s.items (searchUrl query) query
  (⟨r.1⟩, r.2)

/-! ## status.py : per-component issue statistics -/

/-- status.py line 122: `issue.milestone if issue.milestone else 'none'` —
the milestone histogram key; a missing milestone and a falsy (empty) title
collapse to the reserved key "none", and a milestone actually titled
"none" lands on the very same key. -/
def milestoneKey (it : GHItem) : String :=
  match it.milestone with
  | some t => if t ≠ "" then t else "none"
  | none => "none"

/-- status.py lines 111-126: the statistics dict folded into
`c["issues"]` for a component tracked at (org, rep), computed from the
combined issue set filtered by `ghi.repo(org, rep)`. -/
def buildIssuesStats (ghi : GitHubIssuesSt) (org rep : String) : IssuesData :=
  let issues := (ghRepo ghi org rep).items
  { count := some (issues.length : Int)
  , prs := some ((issues.filter (fun it => it.pr_marker)).length : Int)
  , drafts := some ((issues.filter (fun it => it.draft_marker)).length : Int)
  , labels := some (counterOf ((issues.map (fun it => it.labels)).flatten))
  , milestones := some (counterOf (issues.map milestoneKey)) }

/-! ## Concrete fixtures used by witnesses and counterexamples -/

/-- A backing store with a single snapshot POM whose embedded build
timestamp is exactly one day after the requested metadata timestamp. -/
def fsDayOff : MavenFS :=
  { metadataFile := fun _ => none
  , dirListing := fun p =>
      if p = "/opt/sonatype-work/nexus/storage/snapshots/org/art/1.0-SNAPSHOT"
      then ["art-1.0-20210703.144918-1.pom"] else []
  , pomFileExists := fun _ => false }

def elemT (s : String) : XMLElem := ⟨some s⟩

/-- Snapshot metadata carrying a lastVersion but no lastUpdated element. -/
def metaNoLU : MavenMetadataXML := ⟨[], [elemT "1.0-SNAPSHOT"]⟩

/-- A backing store holding only `metaNoLU` for org:art in the snapshots
repository. -/
def fsNoLU : MavenFS :=
  { metadataFile := fun p =>
      if p = storage ++ "/snapshots/org/art/maven-metadata.xml"
      then some metaNoLU else none
  , dirListing := fun _ => []
  , pomFileExists := fun _ => false }

/-- An entirely empty backing store. -/
def fsEmpty : MavenFS :=
  { metadataFile := fun _ => none
  , dirListing := fun _ => []
  , pomFileExists := fun _ => false }

/-- Release metadata with a parsable lastUpdated and a release version. -/
def metaRel : MavenMetadataXML := ⟨[elemT "20210102030405"], [elemT "1.0.0"]⟩

/-- A backing store with release metadata for org:art but no POM file. -/
def fsRelOnly : MavenFS :=
  { metadataFile := fun p =>
      if p = storage ++ "/releases/org/art/maven-metadata.xml"
      then some metaRel else none
  , dirListing := fun _ => []
  , pomFileExists := fun _ => false }

/-- A component record with no release metadata, no snapshot metadata and no
issues — the "never vetted" boundary case of the maintenance score. -/
def cBroken : ComponentRec := ⟨"org.example", "widget", none, none, none⟩

/-- A never-vetted component whose snapshot has a lastUpdated timestamp. -/
def cBroken2 : ComponentRec :=
  ⟨"org.example", "widget", none, some ⟨some 20210702144918⟩, none⟩

/-- One issue item of the acme/widget scenario. -/
def mkScenItem (ms : Option String) (labels : List String) : GHItem :=
  { repository_url := "https://api.github.com/repos/acme/widget"
  , created_at := "2021-01-01T00:00:00+0000"
  , updated_at := "2021-06-01T00:00:00+0000"
  , pr_marker := false
  , draft_marker := false
  , milestone := ms
  , labels := labels
  , assignees := [] }

/-- The spec's scenario: 5 open issues for acme/widget, one labeled
"question", none labeled "bug", 2 with no milestone. -/
def scenarioItems : List GHItem :=
  [ mkScenItem (some "v1") ["question"]
  , mkScenItem none []
  , mkScenItem none []
  , mkScenItem (some "v1") []
  , mkScenItem (some "v1") [] ]

/-- The acme/widget component record after status.py folds the issue
statistics in. -/
def scenarioComponent : ComponentRec :=
  ⟨"com.acme", "widget", none, none,
    some (buildIssuesStats ⟨scenarioItems⟩ "acme" "widget")⟩

/-- The scenario developer alice, holding only the support role. -/
def alice : Developer := ⟨some "alice", none, some ["support"]⟩

/-- An issue item whose milestone is titled exactly "none". -/
def itNoneMs : GHItem :=
  { repository_url := "https://api.github.com/repos/acme/widget"
  , created_at := "2021-01-01T00:00:00+0000"
  , updated_at := "2021-06-01T00:00:00+0000"
  , pr_marker := false
  , draft_marker := false
  , milestone := some "none"
  , labels := []
  , assignees := [] }

/-- The same item with no milestone at all. -/
def itNoMs : GHItem := { itNoneMs with milestone := none }

/-- A tracker double that always reports a total above the 1000 ceiling,
never offers a next link, and returns one item per page. -/
def trackerOverflow : String → GHPage := fun _ => ⟨[itNoMs], 1500, none⟩

/-- A parsed document with zero, one and two elements at three paths. -/
def docW : XMLDoc :=
  ⟨fun p =>
    if p = "one" then [⟨some "x"⟩]
    else if p = "two" then [⟨some "x"⟩, ⟨some "y"⟩]
    else []⟩

/-! ## Helper lemmas -/

theorem metadataScan_all_missing (fs : MavenFS) (g a : String)
    (hm : ∀ p, fs.metadataFile p = none) :
    ∀ repos, metadataScan fs g a repos none = Except.ok none := by
  intro repos
  induction repos with
  | nil => rfl
  | cons r rest ih => simp [metadataScan, hm, ih]

theorem downloadLoop_fetches_le (tracker : String → GHPage) :
    ∀ (fuel : Nat) (items : List GHItem) (url query : String),
      (downloadLoop tracker fuel items url query).2 ≤ fuel := by
  intro fuel
  induction fuel with
  | zero => intro items url query; simp [downloadLoop]
  | succ n ih =>
    intro items url query
    unfold downloadLoop
    cases h : (downloadPage tracker items url query).2 with
    | none => simp [h]
    | some u =>
      simp [h]
      exact ih _ _ _

theorem counterLookup_nil (k : String) : counterLookup [] k = none := rfl

theorem counterLookup_cons (a : String × Int) (l : List (String × Int)) (k : String) :
    counterLookup (a :: l) k = if a.1 = k then some a.2 else counterLookup l k := by
  by_cases h : a.1 = k
  · simp [counterLookup, List.find?_cons, h]
  · simp [counterLookup, List.find?_cons, h]

theorem counterLookup_counterAdd (l : List (String × Int)) (x k : String) :
    counterLookup (counterAdd l x) k =
      if k = x then some ((counterLookup l k).getD 0 + 1) else counterLookup l k := by
  induction l with
  | nil =>
    by_cases h : k = x
    · subst h; simp [counterAdd, counterLookup_cons, counterLookup_nil]
    · have h2 : ¬(x = k) := fun hh => h hh.symm
      simp [counterAdd, counterLookup_cons, counterLookup_nil, h, h2]
  | cons ab rest ih =>
    obtain ⟨a, b⟩ := ab
    by_cases hax : a = x
    · subst hax
      by_cases hk : k = a
      · subst hk
        simp [counterAdd, counterLookup_cons, beq_iff_eq]
      · have hk2 : ¬(a = k) := fun hh => hk hh.symm
        simp [counterAdd, counterLookup_cons, beq_iff_eq, hk, hk2]
    · by_cases hk : k = a
      · subst hk
        have hkx : ¬(k = x) := hax
        simp [counterAdd, counterLookup_cons, beq_iff_eq, hax, hkx]
      · have hk2 : ¬(a = k) := fun hh => hk hh.symm
        simp [counterAdd, counterLookup_cons, beq_iff_eq, hax, hk2, ih]

theorem counterFold_getD (k : String) :
    ∀ (xs : List String) (acc : List (String × Int)),
      (counterLookup (xs.foldl counterAdd acc) k).getD 0 =
        (counterLookup acc k).getD 0 + (xs.count k : Int) := by
  intro xs
  induction xs with
  | nil => intro acc; simp
  | cons x rest ih =>
    intro acc
    simp only [List.foldl_cons]
    rw [ih (counterAdd acc x), counterLookup_counterAdd]
    by_cases h : k = x
    · subst h
      simp [List.count_cons]
      ring
    · have h2 : ¬(x = k) := fun hh => h hh.symm
      simp [List.count_cons, h, h2]

/-- A Counter histogram looks up to exactly the number of occurrences in the
underlying list (through the null-safe `get ... or 0` idiom of report.py). -/
theorem pyGetOr0_counterOf (xs : List String) (k : String) :
    pyGetOr0 (some (counterOf xs)) k = (xs.count k : Int) := by
  have := counterFold_getD k xs []
  simpa [pyGetOr0, counterOf, counterLookup_nil] using this

/-- The per-repo statistics of status.py depend on the final appended issue
only through the projections the statistics read (repository_url, the two
marker keys, the label list and the milestone histogram key). -/
theorem buildIssuesStats_last_congr (xs : List GHItem) (it it2 : GHItem)
    (hr : it.repository_url = it2.repository_url)
    (hp : it.pr_marker = it2.pr_marker)
    (hd : it.draft_marker = it2.draft_marker)
    (hl : it.labels = it2.labels)
    (hm : milestoneKey it = milestoneKey it2)
    (org rep : String) :
    buildIssuesStats ⟨xs ++ [it]⟩ org rep = buildIssuesStats ⟨xs ++ [it2]⟩ org rep := by
  unfold buildIssuesStats ghRepo
  by_cases hc : pyEndsWith it.repository_url ("/repos/" ++ org ++ "/" ++ rep) = true
  · have hc2 : pyEndsWith it2.repository_url ("/repos/" ++ org ++ "/" ++ rep) = true :=
      hr ▸ hc
    simp [List.filter_append, List.filter_cons, hc, hc2, List.map_append,
      List.flatten_append, List.length_append, hl, hm, hp, hd]
    constructor <;> split <;> rfl
  · have hc2 : ¬(pyEndsWith it2.repository_url ("/repos/" ++ org ++ "/" ++ rep) = true) :=
      hr ▸ hc
    simp [List.filter_append, List.filter_cons, hc, hc2]

/-! ## Claim theorems -/

/-- C1: the claim says a component with absent release metadata and no
vetted-timestamp override scores the "never vetted" sentinel 9999999999999.
The code's guard `last_vetted == 0` compares a datetime against the int 0,
which is always False in CPython, so the sentinel branch is dead: such a
component scores 0 when it also has no snapshot, and with a snapshot
deployed at 2021-07-02 14:49:18 it scores 63760834158 — the seconds
measured from the year-1 `datetime0` sentinel, exactly what the spec says
must not happen. -/
theorem maintenance_score_sentinel_unreachable :
    maintenance_score [] cBroken = Except.ok 0 ∧
    maintenance_score [] cBroken2 = Except.ok 63760834158 ∧
    (63760834158 : Int) ≠ 9999999999999 := by
  refine ⟨by decide, by decide, by decide⟩

/-- C2: the claim says a snapshot POM is only resolved when its
filename-embedded timestamp is within `ts_allowance = 10` seconds of the
metadata timestamp, and never when it differs by whole days. The code
compares `abs(dt_requested - dt_actual).seconds`, the sub-day component of
the timedelta: a POM whose embedded timestamp is exactly one day after the
requested 20210702144918 has `.seconds == 0 <= 10` and is returned, even
though the two timestamps differ by 86400 seconds. -/
theorem pom_snapshot_timestamp_day_off :
    pomResolve fsDayOff snapshot_repos "org" "art" "1.0-SNAPSHOT" (some "20210702144918")
      = Except.ok (some "/opt/sonatype-work/nexus/storage/snapshots/org/art/1.0-SNAPSHOT/art-1.0-20210703.144918-1.pom") ∧
    ∃ dtReq dtAct : PyDateTime,
      ts2dt "20210702144918" = Except.ok dtReq ∧
      ts2dt "20210703.144918" = Except.ok dtAct ∧
      (dtReq.toSecs - dtAct.toSecs).natAbs = 86400 ∧ ts_allowance < 86400 := by
  exact ⟨by decide, ⟨2021, 7, 2, 14, 49, 18⟩, ⟨2021, 7, 3, 14, 49, 18⟩,
    by decide, by decide, by decide, by decide⟩

/-- C3 counterexample: resolving a component whose snapshot metadata has a
lastVersion but no lastUpdated element makes `__init__` pass the string
"None" to `ts2dt`, which raises ValueError past the resolver boundary —
refuting the claim that unparsable timestamps degrade to absent fields. -/
theorem maven_resolution_unparsable_timestamp_raises :
    mavenComponentInit fsNoLU "org" "art" = Except.error "Invalid timestamp: None" := by
  decide

/-- C3 amended: missing backing stores and missing metadata files degrade
every field of the result to absent, and a present release metadata with a
missing POM file degrades only the manifest to absent; but an unparsable
timestamp string (here the stringified None of a snapshot without
lastUpdated) raises a ValueError out of the resolution. -/
theorem maven_resolution_missing_data_absent (fs : MavenFS) (g a : String)
    (hm : ∀ p, fs.metadataFile p = none) :
    mavenComponentInit fs g a = Except.ok ⟨g, a, none, none, none⟩ ∧
    mavenComponentInit fsRelOnly "org" "art" =
      Except.ok ⟨"org", "art", some metaRel, none, none⟩ ∧
    mavenComponentInit fsNoLU "org" "art" = Except.error "Invalid timestamp: None" := by
  refine ⟨?_, by decide, by decide⟩
  have h1 := metadataScan_all_missing fs g a hm release_repos
  have h2 := metadataScan_all_missing fs g a hm snapshot_repos
  simp [mavenComponentInit, h1, h2, releasePomBranch]

/-- C3 witness: the empty backing store resolves to a record whose release,
snapshot and pom fields are all absent, without an error. -/
theorem maven_resolution_missing_data_absent_witness :
    mavenComponentInit fsEmpty "g" "a" = Except.ok ⟨"g", "a", none, none, none⟩ :=
  (maven_resolution_missing_data_absent fsEmpty "g" "a" (fun _ => rfl)).1

/-- C4: the support score of a record with issue data is
10 × (open count − "question" label count) + 100 × ("bug" label count)
+ 25 × (no-milestone count); over the statistics built by status.py the
three counts are literally the list counts of the filtered issue set; a
record without issue data scores 0; the acme/widget scenario (5 open
issues, one "question", no "bug", 2 without milestone) scores 90, which is
also the total of the developer alice holding only the support role. -/
theorem support_score_formula (c : ComponentRec) (i : IssuesData) (h : c.issues = some i) :
    support_score c =
      10 * (i.count.getD 0 - pyGetOr0 i.labels "question")
        + 100 * pyGetOr0 i.labels "bug" + 25 * pyGetOr0 i.milestones "none" ∧
    (∀ (ghi : GitHubIssuesSt) (org rep g2 a2 : String) (rel snap : Option MetaJson),
      support_score ⟨g2, a2, rel, snap, some (buildIssuesStats ghi org rep)⟩ =
        10 * (((ghRepo ghi org rep).items.length : Int)
            - ((((ghRepo ghi org rep).items.map (fun it => it.labels)).flatten).count "question" : Int))
          + 100 * ((((ghRepo ghi org rep).items.map (fun it => it.labels)).flatten).count "bug" : Int)
          + 25 * (((ghRepo ghi org rep).items.map milestoneKey).count "none" : Int)) ∧
    (∀ c2 : ComponentRec, c2.issues = none → support_score c2 = 0) ∧
    support_score scenarioComponent = 90 ∧
    developer_score [] scenarioComponent alice = Except.ok (some 90) := by
  refine ⟨?_, ?_, ?_, by decide, by decide⟩
  · simp [support_score, h]
  · intro ghi org rep g2 a2 rel snap
    simp [support_score, buildIssuesStats, pyGetOr0_counterOf]
  · intro c2 h2; simp [support_score, h2]

/-- C4 witness: the acme/widget scenario record scores 90. -/
theorem support_score_formula_witness : support_score scenarioComponent = 90 :=
  (support_score_formula scenarioComponent
    (buildIssuesStats ⟨scenarioItems⟩ "acme" "widget") rfl).2.2.2.1

/-- C5: on a page response without a "next" link, the client continues with
the synthesized query `{query}+created:>{created_at of the page's last
item}` exactly when the reported total exceeds 1000 and the page is
non-empty; in every other no-continuation-link case pagination stops. -/
theorem download_page_overflow_continuation (tracker : String → GHPage)
    (items : List GHItem) (url query : String)
    (hnext : (tracker url).nextLink = none) :
    ((tracker url).total_count > 1000 → (tracker url).items ≠ [] →
      (downloadPage tracker items url query).2 =
        some (searchUrl (query ++ "+created:>" ++ lastCreatedAt (tracker url).items))) ∧
    (¬((tracker url).total_count > 1000 ∧ (tracker url).items ≠ []) →
      (downloadPage tracker items url query).2 = none) := by
  constructor
  · intro h1 h2
    have hlen : 0 < (tracker url).items.length := List.length_pos.mpr h2
    simp [downloadPage, hnext, h1, hlen]
  · intro h
    rcases Decidable.not_and_iff_or_not.mp h with h1 | h2
    · simp [downloadPage, hnext, h1]
    · have h3 : (tracker url).items = [] := not_ne_iff.mp h2
      simp [downloadPage, hnext, h3]

/-- C5 witness: a tracker that reports 1500 results, no "next" link and one
item makes the client continue with the overflow query. -/
theorem download_page_overflow_continuation_witness :
    (downloadPage trackerOverflow [] "u" "q").2 =
      some (searchUrl ("q" ++ "+created:>" ++ lastCreatedAt (trackerOverflow "u").items)) :=
  (download_page_overflow_continuation trackerOverflow [] "u" "q" rfl).1
    (by decide) (by decide)

/-- C6: for every tracker behaviour and query, the download loop performs at
most `max_requests = 100` page fetches and terminates (the model is a
total function, mirroring the bounded `for _ in range(self._max_requests)`
of github.py). -/
theorem download_bounded_by_max_requests (tracker : String → GHPage)
    (query : String) (s : GitHubIssuesSt) :
    (ghDownload tracker s query).2 ≤ max_requests ∧ max_requests = 100 :=
  ⟨downloadLoop_fetches_le tracker max_requests s.items (searchUrl query) query, rfl⟩

/-- C7: a field lookup finding zero elements returns absent, exactly one
element returns its text, and more than one element fails loudly with an
assertion error. -/
theorem xml_value_cardinality (doc : XMLDoc) (path : String) :
    (doc.findall path = [] → doc.value path = Except.ok none) ∧
    (∀ e, doc.findall path = [e] → doc.value path = Except.ok e.text) ∧
    (2 ≤ (doc.findall path).length → ∃ msg, doc.value path = Except.error msg) := by
  refine ⟨?_, ?_, ?_⟩
  · intro h; simp [XMLDoc.value, xmlValue, h]
  · intro e h; simp [XMLDoc.value, xmlValue, h]
  · intro h
    refine ⟨"AssertionError: len(el) <= 1", ?_⟩
    unfold XMLDoc.value xmlValue
    rw [if_neg (by omega)]

/-- C7 witness: a document with zero, one and two elements at three paths
exhibits all three behaviours. -/
theorem xml_value_cardinality_witness :
    XMLDoc.value docW "zero" = Except.ok none ∧
    XMLDoc.value docW "one" = Except.ok (some "x") ∧
    (∃ msg, XMLDoc.value docW "two" = Except.error msg) :=
  ⟨(xml_value_cardinality docW "zero").1 (by decide),
   (xml_value_cardinality docW "one").2.1 ⟨some "x"⟩ (by decide),
   (xml_value_cardinality docW "two").2.2 (by decide)⟩

/-- C8: saving an accumulated issue set and loading the file into a fresh
empty set yields a set whose per-repo filtered items are identical to the
pre-save set's, for every org and repo. -/
theorem save_load_round_trip (s : GitHubIssuesSt) (org rep : String) :
    ghRepo (ghLoad ⟨[]⟩ (ghSave s)) org rep = ghRepo s org rep := by
  simp [ghSave, ghLoad, ghRepo]

/-- C9: the claim says both file2map parsers skip blank and comment lines.
html-report.py's does, but report.py's raises IndexError on a blank line
(its stripped form splits to a singleton) and maps a comment line to the
entry ("#", rest) instead of ignoring it. -/
theorem file2map_blank_comment_lines :
    file2map_report ["# comment line", "", "alpha one"] " " =
      Except.error "IndexError: list index out of range" ∧
    file2map_html ["# comment line", "", "alpha one"] " " = Except.ok [("alpha", "one")] ∧
    file2map_report ["# comment line"] " " = Except.ok [("#", "comment line")] := by
  refine ⟨by decide, by decide, by decide⟩

/-- C10: an open issue whose milestone is titled exactly "none" gets the
same reserved milestone-histogram key as an issue with no milestone at
all, so the statistics built by status.py are identical whichever of the
two is appended, and each contributes 25 to the support score's
no-milestone term (a single such issue scores 10 + 25 = 35 either way). -/
theorem milestone_none_key_collision (xs : List GHItem) (it : GHItem)
    (h : it.milestone = some "none") :
    milestoneKey it = "none" ∧
    milestoneKey { it with milestone := none } = "none" ∧
    buildIssuesStats ⟨xs ++ [it]⟩ "acme" "widget" =
      buildIssuesStats ⟨xs ++ [{ it with milestone := none }]⟩ "acme" "widget" ∧
    support_score ⟨"g", "a", none, none, some (buildIssuesStats ⟨[itNoneMs]⟩ "acme" "widget")⟩ = 35 ∧
    support_score ⟨"g", "a", none, none, some (buildIssuesStats ⟨[itNoMs]⟩ "acme" "widget")⟩ = 35 := by
  have hk : milestoneKey it = "none" := by simp [milestoneKey, h]
  have hk2 : milestoneKey { it with milestone := none } = "none" := by simp [milestoneKey]
  exact ⟨hk, hk2,
    buildIssuesStats_last_congr xs it { it with milestone := none } rfl rfl rfl rfl
      (hk.trans hk2.symm) "acme" "widget",
    by decide, by decide⟩

/-- C10 witness: appending the "none"-titled issue and appending the
milestone-less issue yield identical statistics. -/
theorem milestone_none_key_collision_witness :
    buildIssuesStats ⟨[] ++ [itNoneMs]⟩ "acme" "widget" =
      buildIssuesStats ⟨[] ++ [{ itNoneMs with milestone := none }]⟩ "acme" "widget" :=
  (milestone_none_key_collision [] itNoneMs rfl).2.2.1
